import Mathlib

/-!
Verification of `lib/passport-youtube-v3/strategy.js` (passport-youtube).

The module is a passport OAuth2 adapter for YouTube.  We shallowly embed the
three operations the spec describes:

* `Strategy` (the constructor, which mutates its `options` argument),
* `Strategy.prototype.userProfile` (the spec's `fetchProfile`),
* `Strategy.prototype._convertProfileFields` (the spec's `mapProfileFieldNames`),
* `Strategy.prototype.authorizationParams` (the spec's `buildAuthorizationParams`).

JavaScript values flowing through `userProfile` are modelled by `JsVal`;
`JSON.parse` is a host primitive (not code of this repository), so it is taken
as a parameter `parse : String -> Except JsError JsVal` of the embedding, with
thrown exceptions modelled by the `Except` error component.  Property access
and its TypeError on `null`/`undefined` are modelled by `getProp`/`getIndex`,
and JavaScript truthiness by `truthy`.
-/

/-- A JavaScript value as it can occur in `userProfile`: the result of
`JSON.parse` plus `undefined`, which property access can produce. -/
inductive JsVal where
  | undef : JsVal
  | null : JsVal
  | bool : Bool → JsVal
  | num : Int → JsVal
  | str : String → JsVal
  | arr : List JsVal → JsVal
  | obj : List (String × JsVal) → JsVal
deriving Repr

/-- Exceptions that the `try` block of `userProfile` can catch: the TypeError
raised by reading a property of `undefined`/`null`, and the SyntaxError raised
by `JSON.parse` on invalid input. -/
inductive JsError where
  | typeError : JsError
  | syntaxError : JsError
deriving Repr, DecidableEq

/-- JavaScript truthiness of a value, as used by `if (...)` and `&&`. -/
def truthy : JsVal → Bool
  | .undef => false
  | .null => false
  | .bool b => b
  | .num n => n != 0
  | .str s => s != ""
  | .arr _ => true
  | .obj _ => true

/-- JavaScript property access `v[k]`: throws a TypeError on `undefined` and
`null`, yields `undefined` for a missing property, `length` is special on
strings and arrays. -/
def getProp : JsVal → String → Except JsError JsVal
  | .undef, _ => .error .typeError
  | .null, _ => .error .typeError
  | .bool _, _ => .ok .undef
  | .num _, _ => .ok .undef
  | .str s, k => .ok (if k = "length" then .num s.length else .undef)
  | .arr xs, k => .ok (if k = "length" then .num xs.length else .undef)
  | .obj fs, k => .ok ((fs.lookup k).getD .undef)

/-- JavaScript indexed access `v[i]` for a numeric literal index: throws a
TypeError on `undefined` and `null`, indexes arrays and strings, looks the
decimal string up on objects, and yields `undefined` otherwise. -/
def getIndex : JsVal → Nat → Except JsError JsVal
  | .undef, _ => .error .typeError
  | .null, _ => .error .typeError
  | .bool _, _ => .ok .undef
  | .num _, _ => .ok .undef
  | .str s, i => .ok (match s.toList.get? i with
      | some c => .str (String.mk [c])
      | none => .undef)
  | .arr xs, i => .ok (xs.getD i .undef)
  | .obj fs, i => .ok ((fs.lookup (toString i)).getD .undef)

/-- The normalized profile built by `userProfile`.  `id`/`displayName` are
`none` exactly when the corresponding property is never assigned; a JavaScript
`undefined` stored in an assigned property is `some .undef`. -/
structure Profile where
  provider : String
  id : Option JsVal := none
  displayName : Option JsVal := none
  _raw : String
  _json : JsVal
deriving Repr

/-- The errors `userProfile` can pass to its `done` callback: the
`InternalOAuthError` wrapping a transport error (the spec's ProfileFetchError)
and a raw caught exception passed through `done(e)` (the spec's
ProfileParseError). -/
inductive ProfileError where
  | InternalOAuthError : String → String → ProfileError
  | raised : JsError → ProfileError
deriving Repr

/-- Outcome of `this._oauth2.getProtectedResource`: either a truthy `err`
argument (modelled by its message) or a response body string. -/
inductive FetchOutcome where
  | failure : String → FetchOutcome
  | success : String → FetchOutcome

/-- The `try` block of `userProfile` after `JSON.parse` succeeded with `json`:
`var youtubeProfile = json.items && json.items.length && json.items[0];`
followed by the conditional extraction of `id` and `snippet.title`. -/
def profileFromJson (body : String) (json : JsVal) : Except JsError Profile :=
  match getProp json "items" with
  | .error e => .error e
  | .ok items =>
    match (if truthy items then getProp items "length" else .ok items) with
    | .error e => .error e
    | .ok t1 =>
      match (if truthy t1 then getIndex items 0 else .ok t1) with
      | .error e => .error e
      | .ok youtubeProfile =>
        if truthy youtubeProfile then
          match getProp youtubeProfile "id" with
          | .error e => .error e
          | .ok pid =>
            match getProp youtubeProfile "snippet" with
            | .error e => .error e
            | .ok snippet =>
              match getProp snippet "title" with
              | .error e => .error e
              | .ok title =>
                .ok { provider := "youtube", id := some pid,
                      displayName := some title, _raw := body, _json := json }
        else
          .ok { provider := "youtube", _raw := body, _json := json }

/-- `Strategy.prototype.userProfile`, the spec's `fetchProfile`, as a function
of the `JSON.parse` primitive and of the outcome the transport delivers to the
callback.  `done(err, profile)` is modelled as `Except`. -/
def tryBlock (parse : String → Except JsError JsVal)
    (body : String) : Except JsError Profile :=
  match parse body with
  | .error e => .error e
  | .ok json => profileFromJson body json

def userProfile (parse : String → Except JsError JsVal)
    (outcome : FetchOutcome) : Except ProfileError Profile :=
  match outcome with
  | .failure err => .error (.InternalOAuthError "failed to fetch user profile" err)
  | .success body =>
    match tryBlock parse body with
    | .ok profile => .ok profile
    | .error e => .error (.raised e)

/-- The property names the `map` object literal of `_convertProfileFields`
inherits from `Object.prototype` (ECMAScript, including the Annex B
accessors): for these keys `map[f]` walks the prototype chain and finds a
function or object, so `typeof map[f]` is not `'undefined'`. -/
def objectPrototypeProps : List String :=
  ["constructor", "hasOwnProperty", "isPrototypeOf", "propertyIsEnumerable",
   "toLocaleString", "toString", "valueOf", "__proto__",
   "__defineGetter__", "__defineSetter__", "__lookupGetter__", "__lookupSetter__"]

/-- A value the lookup `map[f]` in `_convertProfileFields` can yield: one of
the object literal's own entries — a provider field name string, or the
two-element array for `name` — or a member inherited from
`Object.prototype`, identified here by the key that reached it. -/
inductive MapValue where
  | str : String → MapValue
  | arrOf : List String → MapValue
  | inherited : String → MapValue
deriving Repr, DecidableEq

/-- An element pushed into the `fields` array: a provider field name string,
or an inherited `Object.prototype` member (a function or object) pushed when
the requested name collides with one. -/
inductive FieldEntry where
  | str : String → FieldEntry
  | inherited : String → FieldEntry
deriving Repr, DecidableEq

/-- The lookup `map[f]` of `_convertProfileFields` combined with its
`typeof map[f] === 'undefined'` guard: the literal's four own entries shadow
the prototype; any other key falls through to the prototype chain, where the
`Object.prototype` members are found (so the guard does not drop them); only
the remaining keys yield `undefined` (`none`). -/
def fieldMap (f : String) : Option MapValue :=
  if f = "id" then some (.str "id")
  else if f = "username" then some (.str "username")
  else if f = "displayName" then some (.str "name")
  else if f = "name" then some (.arrOf ["last_name", "first_name"])
  else if f ∈ objectPrototypeProps then some (.inherited f)
  else none

/-- One iteration of the `forEach` in `_convertProfileFields`: return on an
undefined lookup, `Array.prototype.push.apply(fields, map[f])` for an array,
and `fields.push(map[f])` for any other value — a string or an inherited
prototype member alike. -/
def pushMapped (fields : List FieldEntry) (f : String) : List FieldEntry :=
  match fieldMap f with
  | none => fields
  | some (.arrOf ss) => fields ++ ss.map FieldEntry.str
  | some (.str s) => fields ++ [.str s]
  | some (.inherited k) => fields ++ [.inherited k]

/-- The `fields` accumulator of `_convertProfileFields` just before the final
`fields.join(',')`. -/
def convertProfileFieldsList (profileFields : List String) : List FieldEntry :=
  profileFields.foldl pushMapped []

/-- How `Array.prototype.join` renders one element of `fields`: a string
renders as itself; the rendering of an inherited function or object is
host-defined, so it is taken as the parameter `inheritedString` (like
`JSON.parse` above). -/
def fieldEntryString (inheritedString : String → String) : FieldEntry → String
  | .str s => s
  | .inherited k => inheritedString k

/-- `Strategy.prototype._convertProfileFields`: the accumulated `fields`
array joined with commas, each element rendered by `join`'s element
conversion. -/
def convertProfileFields (inheritedString : String → String)
    (profileFields : List String) : String :=
  String.intercalate ","
    ((convertProfileFieldsList profileFields).map (fieldEntryString inheritedString))

/-- Modelled from the spec: `mapProfileFieldNames`, the spec-level view of
`_convertProfileFields` returning the flattened ordered sequence of provider
field names (the source returns this sequence joined with commas).  Written
from the spec's mapping table: id maps to id, username to username,
displayName to name, name expands to last_name then first_name, unrecognized
names are dropped. -/
def mapProfileFieldNames (requestedFields : List String) : List String :=
  requestedFields.flatMap (fun f =>
    if f = "id" then ["id"]
    else if f = "username" then ["username"]
    else if f = "displayName" then ["name"]
    else if f = "name" then ["last_name", "first_name"]
    else [])

/-- The options object `Strategy.prototype.authorizationParams` inspects.
Each recognized option is an optional string; JavaScript truthiness of a
present string is non-emptiness. -/
structure AuthorizationOptions where
  accessType : Option String := none
  approvalPrompt : Option String := none
  prompt : Option String := none
  loginHint : Option String := none
  userID : Option String := none
  hostedDomain : Option String := none
  hd : Option String := none
  display : Option String := none
  requestVisibleActions : Option String := none
  openIDRealm : Option String := none
deriving Repr

/-- JavaScript truthiness of an option value: absent and the empty string are
falsy. -/
def jsTruthy : Option String → Bool
  | none => false
  | some s => s != ""

/-- JavaScript `a || b` on option values. -/
def jsOr (a b : Option String) : Option String :=
  if jsTruthy a then a else b

/-- One `if (options.x) params['k'] = v;` statement of `authorizationParams`,
as the (zero- or one-element) list of entries it adds. -/
def optEntry (k : String) (v : Option String) : List (String × String) :=
  match v with
  | none => []
  | some s => if s = "" then [] else [(k, s)]

/-- `Strategy.prototype.authorizationParams`, the spec's
`buildAuthorizationParams`.  The returned object is modelled as the
association list of the entries assigned, in statement order. -/
def authorizationParams (options : AuthorizationOptions) : List (String × String) :=
  optEntry "access_type" options.accessType ++
  optEntry "approval_prompt" options.approvalPrompt ++
  optEntry "prompt" options.prompt ++
  optEntry "login_hint" options.loginHint ++
  optEntry "user_id" options.userID ++
  optEntry "hd" (jsOr options.hostedDomain options.hd) ++
  optEntry "display" options.display ++
  optEntry "request_visible_actions" options.requestVisibleActions ++
  optEntry "openid.realm" options.openIDRealm

/-- The entry a set option contributes, regardless of truthiness: used to
state the spec's "exactly one entry per set field" property. -/
def entryOf (k : String) (v : Option String) : List (String × String) :=
  match v with
  | none => []
  | some s => [(k, s)]

/-- Modelled from the spec: the map with exactly one entry per set field under
the documented renamed key and no extra entries (hostedDomain and hd share
the single output key hd, hostedDomain first). -/
def specAuthorizationEntries (options : AuthorizationOptions) : List (String × String) :=
  entryOf "access_type" options.accessType ++
  entryOf "approval_prompt" options.approvalPrompt ++
  entryOf "prompt" options.prompt ++
  entryOf "login_hint" options.loginHint ++
  entryOf "user_id" options.userID ++
  entryOf "hd" (jsOr options.hostedDomain options.hd) ++
  entryOf "display" options.display ++
  entryOf "request_visible_actions" options.requestVisibleActions ++
  entryOf "openid.realm" options.openIDRealm

/-- The nine query-parameter keys `authorizationParams` can emit, in statement
order. -/
def authorizationKeys : List String :=
  ["access_type", "approval_prompt", "prompt", "login_hint", "user_id",
   "hd", "display", "request_visible_actions", "openid.realm"]

/-- The options object handed to the `Strategy` constructor, restricted to the
fields the constructor itself reads or writes. -/
structure StrategyOptions where
  authorizationURL : Option String := none
  tokenURL : Option String := none
  scope : Option (List String) := none
  profileURL : Option String := none
deriving Repr

def defaultAuthorizationURL : String := "https://accounts.google.com/o/oauth2/auth"

def defaultTokenURL : String := "https://accounts.google.com/o/oauth2/token"

def defaultScope : List String := ["https://www.googleapis.com/auth/youtube.readonly"]

def defaultProfileURL : String :=
  "https://www.googleapis.com/youtube/v3/channels?part=snippet&mine=true"

/-- JavaScript `a || b` where `b` is a (non-empty) string literal: the result
is always a string. -/
def jsOrString (a : Option String) (b : String) : String :=
  match a with
  | none => b
  | some s => if s = "" then b else s

/-- The adapter-internal state the constructor sets on `this`. -/
structure StrategyState where
  name : String
  _profileURL : String
deriving Repr

/-- The `Strategy` constructor.  It assigns `options.authorizationURL`,
`options.tokenURL` and `options.scope` on the caller-supplied options object
(JavaScript `x = x || default`), then sets `this.name` and
`this._profileURL`.  The mutation of the caller's object is modelled by
returning the updated options alongside the internal state. -/
def Strategy (options : StrategyOptions) : StrategyOptions × StrategyState :=
  let options1 := { options with
    authorizationURL := some (jsOrString options.authorizationURL defaultAuthorizationURL) }
  let options2 := { options1 with
    tokenURL := some (jsOrString options1.tokenURL defaultTokenURL) }
  let options3 := { options2 with
    scope := some ((options2.scope).getD defaultScope) }
  (options3,
   { name := "youtube",
     _profileURL := jsOrString options3.profileURL defaultProfileURL })

/-- A set option is truthy: if present, its value is a non-empty string. -/
def SetTruthy (v : Option String) : Prop := ∀ s, v = some s → s ≠ ""

/-! ## Helper lemmas -/

theorem getProp_ok_of_truthy (v : JsVal) (k : String) (h : truthy v = true) :
    ∃ w, getProp v k = .ok w := by
  cases v with
  | undef => simp [truthy] at h
  | null => simp [truthy] at h
  | bool b => exact ⟨_, rfl⟩
  | num n => exact ⟨_, rfl⟩
  | str s => exact ⟨_, rfl⟩
  | arr xs => exact ⟨_, rfl⟩
  | obj fs => exact ⟨_, rfl⟩

theorem pushMapped_eq_append (acc : List FieldEntry) (f : String)
    (hf : ¬ f ∈ objectPrototypeProps) :
    pushMapped acc f = acc ++ (mapProfileFieldNames [f]).map FieldEntry.str := by
  simp only [pushMapped, fieldMap, mapProfileFieldNames, List.flatMap]
  split_ifs <;> simp_all

theorem foldl_pushMapped_eq (xs : List String) :
    ∀ acc : List FieldEntry, (∀ f ∈ xs, ¬ f ∈ objectPrototypeProps) →
    xs.foldl pushMapped acc = acc ++ (mapProfileFieldNames xs).map FieldEntry.str := by
  induction xs with
  | nil => intro acc h; simp [mapProfileFieldNames]
  | cons f xs ih =>
    intro acc h
    rw [List.foldl_cons, ih _ (fun g hg => h g (by simp [hg])),
        pushMapped_eq_append _ _ (h f (by simp))]
    simp [mapProfileFieldNames]

theorem convertProfileFieldsList_eq_spec (xs : List String)
    (h : ∀ f ∈ xs, ¬ f ∈ objectPrototypeProps) :
    convertProfileFieldsList xs = (mapProfileFieldNames xs).map FieldEntry.str := by
  simpa using foldl_pushMapped_eq xs [] h

theorem setTruthy_jsOr {a b : Option String} (ha : SetTruthy a) (hb : SetTruthy b) :
    SetTruthy (jsOr a b) := by
  intro s hs
  unfold jsOr at hs
  split at hs
  · exact ha s hs
  · exact hb s hs

theorem optEntry_eq_entryOf {v : Option String} (k : String) (h : SetTruthy v) :
    optEntry k v = entryOf k v := by
  cases v with
  | none => rfl
  | some s => simp [optEntry, entryOf, h s rfl]

theorem optEntry_keys_sublist (k : String) (v : Option String) :
    List.Sublist ((optEntry k v).map Prod.fst) [k] := by
  cases v with
  | none => simp [optEntry]
  | some s =>
    by_cases hs : s = "" <;> simp [optEntry, hs]

theorem lookup_optEntry_append (p k : String) (v : Option String)
    (rest : List (String × String)) (h : p ≠ k) :
    List.lookup p (optEntry k v ++ rest) = List.lookup p rest := by
  cases v with
  | none => rfl
  | some s =>
    have hpk : (p == k) = false := beq_eq_false_iff_ne.mpr h
    by_cases hs : s = "" <;> simp [optEntry, hs, List.lookup, hpk]

theorem truthy_arr (xs : List JsVal) : truthy (.arr xs) = true := rfl

theorem truthy_num (n : Int) : truthy (.num n) = (n != 0) := rfl

theorem getProp_arr_length (xs : List JsVal) :
    getProp (.arr xs) "length" = .ok (.num xs.length) := by
  simp [getProp]

theorem getIndex_arr (xs : List JsVal) (i : Nat) :
    getIndex (.arr xs) i = .ok (xs.getD i .undef) := rfl

theorem getProp_undef (k : String) : getProp .undef k = .error .typeError := rfl

theorem getProp_null (k : String) : getProp .null k = .error .typeError := rfl

theorem profileFromJson_ok_provider {body : String} {json : JsVal} {p : Profile}
    (h : profileFromJson body json = .ok p) : p.provider = "youtube" := by
  unfold profileFromJson at h
  repeat' split at h
  all_goals simp at h
  all_goals (subst h; rfl)

theorem fieldMap_eq_none (f : String)
    (hf1 : ¬ f ∈ (["id", "username", "displayName", "name"] : List String))
    (hf2 : ¬ f ∈ objectPrototypeProps) :
    fieldMap f = none := by
  simp only [List.mem_cons, List.not_mem_nil, or_false, not_or] at hf1
  obtain ⟨h1, h2, h3, h4⟩ := hf1
  simp [fieldMap, h1, h2, h3, h4, hf2]

/-! ## Claims -/

/-- C1 (amended): for every response body whose parse succeeds, whose `items`
list is present and non-empty, whose first item is truthy, and whose first
item's fields can be read without an exception (in particular its `snippet`
is not `undefined`/`null`), `userProfile` completes successfully with a
profile whose provider is `youtube`, whose `id` is the first item's `id`
field, whose `displayName` is the first item's `snippet.title` field, whose
`_raw` is the exact body and whose `_json` is the parsed structure. -/
theorem fetchProfile_first_item_profile (parse : String → Except JsError JsVal)
    (body : String) (json x sn i t : JsVal) (l : List JsVal)
    (hp : parse body = .ok json)
    (hi : getProp json "items" = .ok (.arr (x :: l)))
    (hx : truthy x = true)
    (hid : getProp x "id" = .ok i)
    (hsn : getProp x "snippet" = .ok sn)
    (ht : getProp sn "title" = .ok t) :
    userProfile parse (.success body) =
      .ok { provider := "youtube", id := some i, displayName := some t,
            _raw := body, _json := json } := by
  have hne : ((l.length : Int) + 1) ≠ 0 := by omega
  have hpf : profileFromJson body json =
      .ok { provider := "youtube", id := some i, displayName := some t,
            _raw := body, _json := json } := by
    unfold profileFromJson
    rw [hi]
    simp [truthy_arr, truthy_num, getProp_arr_length, getIndex_arr, hne, hx, hid, hsn, ht]
  simp [userProfile, tryBlock, hp, hpf]

/-- C1 witness: the spec's own example body, with `JSON.parse` returning its
parse tree. -/
theorem fetchProfile_first_item_profile_witness :
    userProfile
      (fun _ => Except.ok (JsVal.obj [("items", JsVal.arr
        [JsVal.obj [("id", JsVal.str "abc"),
                    ("snippet", JsVal.obj [("title", JsVal.str "My Channel")])]])]))
      (.success "\x7b\"items\":[\x7b\"id\":\"abc\",\"snippet\":\x7b\"title\":\"My Channel\"\x7d\x7d]\x7d") =
      .ok { provider := "youtube", id := some (JsVal.str "abc"),
            displayName := some (JsVal.str "My Channel"),
            _raw := "\x7b\"items\":[\x7b\"id\":\"abc\",\"snippet\":\x7b\"title\":\"My Channel\"\x7d\x7d]\x7d",
            _json := JsVal.obj [("items", JsVal.arr
              [JsVal.obj [("id", JsVal.str "abc"),
                          ("snippet", JsVal.obj [("title", JsVal.str "My Channel")])]])] } :=
  fetchProfile_first_item_profile _ _ _ _ _ _ _ _ rfl rfl rfl rfl rfl rfl

/-- C1 counterexample to the claim as stated: a body parsing to an object
whose item list is present and non-empty, but whose first item lacks the
`snippet` object.  Reading `snippet.title` throws a TypeError, so
`userProfile` does not complete successfully. -/
theorem fetchProfile_nonempty_items_not_always_success :
    getProp (JsVal.obj [("items", JsVal.arr [JsVal.obj []])]) "items" =
      .ok (JsVal.arr [JsVal.obj []]) ∧
    userProfile (fun _ => Except.ok (JsVal.obj [("items", JsVal.arr [JsVal.obj []])]))
      (.success "\x7b\"items\":[\x7b\x7d]\x7d") = .error (.raised .typeError) :=
  ⟨rfl, rfl⟩

/-- C2: a transport error `err` makes `userProfile` complete with the
`InternalOAuthError` (the spec's ProfileFetchError) wrapping `err` under the
fixed message; being an `Except.error`, no profile value is produced. -/
theorem fetchProfile_transport_error (parse : String → Except JsError JsVal)
    (err : String) :
    userProfile parse (.failure err) =
      .error (.InternalOAuthError "failed to fetch user profile" err) := rfl

/-- C3: if `JSON.parse` fails with exception `e`, `userProfile` completes
with that exception passed to `done` (the spec's ProfileParseError carrying
the original exception); and if the body parses but the expected fields raise
while being read — a non-empty item list whose truthy first item has an
`undefined` or `null` `snippet` — `userProfile` completes with the raised
TypeError.  In both cases the result is an `Except.error`, so no partial
profile is returned. -/
theorem fetchProfile_parse_error :
    (∀ (parse : String → Except JsError JsVal) (body : String) (e : JsError),
      parse body = .error e →
      userProfile parse (.success body) = .error (.raised e)) ∧
    (∀ (parse : String → Except JsError JsVal) (body : String)
      (json x sn : JsVal) (l : List JsVal),
      parse body = .ok json →
      getProp json "items" = .ok (.arr (x :: l)) →
      truthy x = true →
      getProp x "snippet" = .ok sn →
      (sn = .undef ∨ sn = .null) →
      userProfile parse (.success body) = .error (.raised .typeError)) := by
  constructor
  · intro parse body e hp
    simp [userProfile, tryBlock, hp]
  · intro parse body json x sn l hp hi hx hsn hbad
    obtain ⟨i, hid⟩ := getProp_ok_of_truthy x "id" hx
    have hne : ((l.length : Int) + 1) ≠ 0 := by omega
    have hpf : profileFromJson body json = .error .typeError := by
      unfold profileFromJson
      rw [hi]
      rcases hbad with h | h <;> subst h <;>
        simp [truthy_arr, truthy_num, getProp_arr_length, getIndex_arr, hne, hx, hid, hsn,
              getProp_undef, getProp_null]
    simp [userProfile, tryBlock, hp, hpf]

/-- C3 witness: the spec's unparseable body, with `JSON.parse` raising a
SyntaxError. -/
theorem fetchProfile_parse_error_witness :
    userProfile (fun _ => Except.error JsError.syntaxError) (.success "not json") =
      .error (.raised .syntaxError) :=
  fetchProfile_parse_error.1 _ "not json" _ rfl

/-- C4: if the body parses and reading `items` yields `undefined` (absent) or
an empty array, `userProfile` completes successfully — not with an error —
with provider `youtube`, `_raw` the exact body, `_json` the parsed structure,
and `id`/`displayName` never assigned. -/
theorem fetchProfile_empty_items (parse : String → Except JsError JsVal)
    (body : String) (json its : JsVal)
    (hp : parse body = .ok json)
    (hi : getProp json "items" = .ok its)
    (hits : its = .undef ∨ its = .arr []) :
    userProfile parse (.success body) =
      .ok { provider := "youtube", id := none, displayName := none,
            _raw := body, _json := json } := by
  have hpf : profileFromJson body json =
      .ok { provider := "youtube", id := none, displayName := none,
            _raw := body, _json := json } := by
    unfold profileFromJson
    rw [hi]
    rcases hits with h | h <;> subst h <;> simp [truthy, getProp, getIndex]
  simp [userProfile, tryBlock, hp, hpf]

/-- C4 witness: the spec's empty-items example body. -/
theorem fetchProfile_empty_items_witness :
    userProfile (fun _ => Except.ok (JsVal.obj [("items", JsVal.arr [])]))
      (.success "\x7b\"items\":[]\x7d") =
      .ok { provider := "youtube", id := none, displayName := none,
            _raw := "\x7b\"items\":[]\x7d",
            _json := JsVal.obj [("items", JsVal.arr [])] } :=
  fetchProfile_empty_items _ _ _ _ rfl rfl (Or.inr rfl)

/-- C5: for options whose set fields are all truthy, `authorizationParams`
returns exactly one entry per set field under the documented renamed key
(the shared hostedDomain-or-hd field under `hd`) and no extra entries: it
equals the spec-side entry map, its keys form a subsequence of the nine
documented keys, and on an empty options object it returns the empty map. -/
theorem buildAuthorizationParams_exact (o : AuthorizationOptions)
    (h1 : SetTruthy o.accessType) (h2 : SetTruthy o.approvalPrompt)
    (h3 : SetTruthy o.prompt) (h4 : SetTruthy o.loginHint) (h5 : SetTruthy o.userID)
    (h6 : SetTruthy o.hostedDomain) (h7 : SetTruthy o.hd) (h8 : SetTruthy o.display)
    (h9 : SetTruthy o.requestVisibleActions) (h10 : SetTruthy o.openIDRealm) :
    authorizationParams o = specAuthorizationEntries o ∧
    List.Sublist ((authorizationParams o).map Prod.fst) authorizationKeys ∧
    authorizationParams {} = [] := by
  refine ⟨?_, ?_, rfl⟩
  · unfold authorizationParams specAuthorizationEntries
    rw [optEntry_eq_entryOf _ h1, optEntry_eq_entryOf _ h2, optEntry_eq_entryOf _ h3,
        optEntry_eq_entryOf _ h4, optEntry_eq_entryOf _ h5,
        optEntry_eq_entryOf _ (setTruthy_jsOr h6 h7), optEntry_eq_entryOf _ h8,
        optEntry_eq_entryOf _ h9, optEntry_eq_entryOf _ h10]
  · have q1 := optEntry_keys_sublist "access_type" o.accessType
    have q2 := optEntry_keys_sublist "approval_prompt" o.approvalPrompt
    have q3 := optEntry_keys_sublist "prompt" o.prompt
    have q4 := optEntry_keys_sublist "login_hint" o.loginHint
    have q5 := optEntry_keys_sublist "user_id" o.userID
    have q6 := optEntry_keys_sublist "hd" (jsOr o.hostedDomain o.hd)
    have q7 := optEntry_keys_sublist "display" o.display
    have q8 := optEntry_keys_sublist "request_visible_actions" o.requestVisibleActions
    have q9 := optEntry_keys_sublist "openid.realm" o.openIDRealm
    have hq := (((((((q1.append q2).append q3).append q4).append q5).append q6).append
      q7).append q8).append q9
    unfold authorizationParams
    simp only [List.map_append]
    exact hq

/-- C5 witness: three truthy options set (accessType, prompt, hd), the rest
absent. -/
theorem buildAuthorizationParams_exact_witness :
    authorizationParams
        { accessType := some "offline", prompt := some "consent",
          hd := some "example.com" } =
      specAuthorizationEntries
        { accessType := some "offline", prompt := some "consent",
          hd := some "example.com" } ∧
    List.Sublist
      ((authorizationParams
        { accessType := some "offline", prompt := some "consent",
          hd := some "example.com" }).map Prod.fst) authorizationKeys ∧
    authorizationParams {} = [] :=
  buildAuthorizationParams_exact _
    (by intro s hs; simp only [Option.some.injEq] at hs; subst hs; decide)
    (by intro s hs; cases hs)
    (by intro s hs; simp only [Option.some.injEq] at hs; subst hs; decide)
    (by intro s hs; cases hs)
    (by intro s hs; cases hs)
    (by intro s hs; cases hs)
    (by intro s hs; simp only [Option.some.injEq] at hs; subst hs; decide)
    (by intro s hs; cases hs)
    (by intro s hs; cases hs)
    (by intro s hs; cases hs)

/-- C6 counterexample to the claim as stated: with both fields supplied but
`hostedDomain` the (falsy) empty string, JavaScript `||` picks `hd`, so the
output `hd` entry is `hd`'s value, not `hostedDomain`'s. -/
theorem buildAuthorizationParams_hd_supplied_counterexample :
    (authorizationParams { hostedDomain := some "", hd := some "example.com" }).lookup "hd" =
      some "example.com" ∧
    ¬ (authorizationParams { hostedDomain := some "", hd := some "example.com" }).lookup "hd" =
      some "" := by
  have h1 : (authorizationParams
      { hostedDomain := some "", hd := some "example.com" }).lookup "hd" =
      some "example.com" := rfl
  refine ⟨h1, fun h => ?_⟩
  rw [h1] at h
  exact absurd h (by decide)

/-- C6 (amended): if both `hostedDomain` and `hd` are supplied and
`hostedDomain` is truthy (a non-empty string), the `hd` entry of
`authorizationParams` equals `hostedDomain`'s value. -/
theorem buildAuthorizationParams_hd_precedence (o : AuthorizationOptions)
    (s t : String) (hhd : o.hostedDomain = some s) (hne : s ≠ "")
    (hd2 : o.hd = some t) :
    (authorizationParams o).lookup "hd" = some s := by
  unfold authorizationParams
  simp only [List.append_assoc]
  rw [lookup_optEntry_append _ _ _ _ (by decide), lookup_optEntry_append _ _ _ _ (by decide),
      lookup_optEntry_append _ _ _ _ (by decide), lookup_optEntry_append _ _ _ _ (by decide),
      lookup_optEntry_append _ _ _ _ (by decide)]
  have hj : jsOr o.hostedDomain o.hd = some s := by
    simp [jsOr, jsTruthy, hhd, hne]
  rw [hj]
  simp [optEntry, hne, List.lookup]

/-- C6 witness: both fields supplied and truthy; hostedDomain wins. -/
theorem buildAuthorizationParams_hd_precedence_witness :
    (authorizationParams
      { hostedDomain := some "corp.example", hd := some "other.example" }).lookup "hd" =
      some "corp.example" :=
  buildAuthorizationParams_hd_precedence _ "corp.example" "other.example" rfl
    (by decide) rfl

/-- C7 counterexample to the claim as stated: on the requested name
`toString` the lookup `map['toString']` finds the inherited
`Object.prototype.toString` — not `undefined` — so the source pushes that
function into `fields` instead of producing the spec's flattened sequence,
which would be empty here. -/
theorem convertProfileFields_inherited_name_counterexample :
    convertProfileFieldsList ["toString"] = [FieldEntry.inherited "toString"] ∧
    (mapProfileFieldNames ["toString"]).map FieldEntry.str = [] ∧
    ¬ convertProfileFieldsList ["toString"] =
        (mapProfileFieldNames ["toString"]).map FieldEntry.str :=
  ⟨rfl, rfl, by decide⟩

/-- C7 (amended): for every ordered sequence of requested field names none of
which is an `Object.prototype` property name, `_convertProfileFields`
computes exactly the spec's flattened ordered sequence
`mapProfileFieldNames` — each recognized name mapping one-to-one and `name`
expanding in place to `last_name` then `first_name` — and returns it joined
with commas (whatever the host's rendering of inherited members is); in
particular on `id, name, username` the sequence is
`id, last_name, first_name, username`. -/
theorem convertProfileFields_field_mapping :
    (∀ profileFields : List String,
      (∀ f ∈ profileFields, ¬ f ∈ objectPrototypeProps) →
      convertProfileFieldsList profileFields =
        (mapProfileFieldNames profileFields).map FieldEntry.str) ∧
    (∀ (inheritedString : String → String) (profileFields : List String),
      (∀ f ∈ profileFields, ¬ f ∈ objectPrototypeProps) →
      convertProfileFields inheritedString profileFields =
        String.intercalate "," (mapProfileFieldNames profileFields)) ∧
    mapProfileFieldNames ["id", "name", "username"] =
      ["id", "last_name", "first_name", "username"] ∧
    (∀ inheritedString : String → String,
      convertProfileFields inheritedString ["id", "name", "username"] =
        "id,last_name,first_name,username") := by
  refine ⟨convertProfileFieldsList_eq_spec, ?_, rfl, fun _ => rfl⟩
  intro inheritedString profileFields h
  unfold convertProfileFields
  rw [convertProfileFieldsList_eq_spec _ h, List.map_map]
  have hcomp : (fieldEntryString inheritedString ∘ FieldEntry.str) = id := by
    funext s; rfl
  rw [hcomp, List.map_id]

/-- C7 witness: the spec's example request, which avoids prototype names. -/
theorem convertProfileFields_field_mapping_witness :
    convertProfileFieldsList ["id", "name", "username"] =
      (mapProfileFieldNames ["id", "name", "username"]).map FieldEntry.str :=
  convertProfileFields_field_mapping.1 ["id", "name", "username"] (by decide)

/-- C8 counterexample to the claim as stated: `constructor` is outside the
recognized set, yet `map['constructor']` finds the inherited `Object`
constructor (`typeof` is `'function'`, not `'undefined'`), so the source
pushes it instead of dropping the name. -/
theorem convertProfileFields_constructor_not_dropped :
    ¬ "constructor" ∈ (["id", "username", "displayName", "name"] : List String) ∧
    convertProfileFieldsList ["constructor"] =
      [FieldEntry.inherited "constructor"] ∧
    ¬ convertProfileFieldsList ["constructor"] = [] :=
  ⟨by decide, rfl, by decide⟩

/-- C8 (amended): a requested field name outside the recognized set that is
not an `Object.prototype` property name is dropped silently: it is unmapped,
removing it from the request leaves the output unchanged, and
`_convertProfileFields` on `bogus` yields the empty sequence and hence the
empty string; a name inherited from `Object.prototype` is instead pushed
through. -/
theorem convertProfileFields_unrecognized_dropped :
    (∀ f, ¬ f ∈ (["id", "username", "displayName", "name"] : List String) →
      ¬ f ∈ objectPrototypeProps → fieldMap f = none) ∧
    (∀ (pre post : List String) (f : String),
      ¬ f ∈ (["id", "username", "displayName", "name"] : List String) →
      ¬ f ∈ objectPrototypeProps →
      convertProfileFieldsList (pre ++ f :: post) =
        convertProfileFieldsList (pre ++ post)) ∧
    convertProfileFieldsList ["bogus"] = [] ∧
    (∀ inheritedString : String → String,
      convertProfileFields inheritedString ["bogus"] = "") := by
  refine ⟨fieldMap_eq_none, ?_, rfl, fun _ => rfl⟩
  intro pre post f hf1 hf2
  unfold convertProfileFieldsList
  rw [List.foldl_append, List.foldl_append, List.foldl_cons]
  have hdrop : pushMapped (List.foldl pushMapped [] pre) f =
      List.foldl pushMapped [] pre := by
    simp [pushMapped, fieldMap_eq_none f hf1 hf2]
  rw [hdrop]

/-- C8 witness: dropping `bogus` between `id` and `username` leaves the
output unchanged. -/
theorem convertProfileFields_unrecognized_dropped_witness :
    convertProfileFieldsList (["id"] ++ "bogus" :: ["username"]) =
      convertProfileFieldsList (["id"] ++ ["username"]) :=
  convertProfileFields_unrecognized_dropped.2.1 ["id"] ["username"] "bogus"
    (by decide) (by decide)

/-- C9: every profile `userProfile` successfully produces has provider
`youtube`, whatever the transport outcome and the parse result. -/
theorem fetchProfile_provider_youtube (parse : String → Except JsError JsVal)
    (outcome : FetchOutcome) (p : Profile)
    (h : userProfile parse outcome = .ok p) : p.provider = "youtube" := by
  cases outcome with
  | failure err => simp [userProfile] at h
  | success body =>
    simp only [userProfile] at h
    cases htb : tryBlock parse body with
    | error e => simp [htb] at h
    | ok q =>
      simp only [htb] at h
      injection h with h
      subst h
      unfold tryBlock at htb
      cases hp : parse body with
      | error e => simp [hp] at htb
      | ok json =>
        rw [hp] at htb
        exact profileFromJson_ok_provider htb

/-- C9 witness: a successful run on a body parsing to an object without
`items`. -/
theorem fetchProfile_provider_youtube_witness :
    ({ provider := "youtube", id := none, displayName := none,
       _raw := "\x7b\x7d", _json := JsVal.obj [] } : Profile).provider = "youtube" :=
  fetchProfile_provider_youtube (fun _ => Except.ok (JsVal.obj []))
    (.success "\x7b\x7d") _ rfl

/-- C10: the `Strategy` constructor writes back into the caller-supplied
options object: after construction its `authorizationURL`, `tokenURL` and
`scope` fields are all set — to the supplied value when it was truthy
(for `scope`, whenever it was present, arrays being always truthy), and to
the provider default when absent or falsy — while `profileURL` is left as
supplied and the defaults also land in the internal state (`name`, and the
profile URL resolved the same way). -/
theorem strategy_constructor_mutates_options (o : StrategyOptions) :
    ((Strategy o).1.authorizationURL.isSome ∧ (Strategy o).1.tokenURL.isSome ∧
      (Strategy o).1.scope.isSome) ∧
    (∀ s, o.authorizationURL = some s → s ≠ "" →
      (Strategy o).1.authorizationURL = some s) ∧
    ((o.authorizationURL = none ∨ o.authorizationURL = some "") →
      (Strategy o).1.authorizationURL = some defaultAuthorizationURL) ∧
    (∀ s, o.tokenURL = some s → s ≠ "" → (Strategy o).1.tokenURL = some s) ∧
    ((o.tokenURL = none ∨ o.tokenURL = some "") →
      (Strategy o).1.tokenURL = some defaultTokenURL) ∧
    (∀ l, o.scope = some l → (Strategy o).1.scope = some l) ∧
    (o.scope = none → (Strategy o).1.scope = some defaultScope) ∧
    (Strategy o).1.profileURL = o.profileURL ∧
    (Strategy o).2.name = "youtube" := by
  refine ⟨⟨by simp [Strategy], by simp [Strategy], by simp [Strategy]⟩,
    ?_, ?_, ?_, ?_, ?_, ?_, rfl, rfl⟩
  · intro s hs hne
    simp [Strategy, jsOrString, hs, hne]
  · rintro (h | h) <;> simp [Strategy, jsOrString, h]
  · intro s hs hne
    simp [Strategy, jsOrString, hs, hne]
  · rintro (h | h) <;> simp [Strategy, jsOrString, h]
  · intro l hl
    simp [Strategy, hl]
  · intro h
    simp [Strategy, h]

/-- C10 witness: a supplied authorization URL survives construction on the
options object itself. -/
theorem strategy_constructor_mutates_options_witness :
    (Strategy { authorizationURL := some "https://auth.example/a" }).1.authorizationURL =
      some "https://auth.example/a" :=
  (strategy_constructor_mutates_options
    { authorizationURL := some "https://auth.example/a" }).2.1
    "https://auth.example/a" rfl (by decide)
